import Mathlib

/-!
Verification development for the Constellations backend scene module
(src/scenes.ts). We embed the data model and the request handlers that the
specification describes as pure Lean functions and prove the specified
properties about them.

Modelling conventions:

* JavaScript numbers are modelled as rationals. The constant `Math.PI` is a
  fixed numeric constant in the source; every definition that consults it
  takes it as an explicit parameter `pi`, so theorems quantify over it.
* MongoDB ObjectIds are modelled as strings.
* External collaborators (the handle directory's capability predicate, the
  Keycloak role predicate, the image store, the session store, the
  tessellation store) are modelled as boolean parameters / predicate
  parameters of the handlers, exactly at the points where the source calls
  them.
* JavaScript truthiness of a string (used by `if (input.text)` and friends)
  is: a string is truthy iff it is nonempty.
* Early `return res.json(...)` paths are modelled with `Except`: an error
  value carries the HTTP status code and message of the rejected response.
-/

namespace Constellations

/-- A scene place, mirroring the io-ts codec `ScenePlace` in src/scenes.ts. -/
structure ScenePlace where
  ra_rad : ℚ
  dec_rad : ℚ
  roll_rad : ℚ
  roi_height_deg : ℚ
  roi_aspect_ratio : ℚ
deriving DecidableEq, Repr

/-- An image layer, mirroring the io-ts codec `ImageLayer`. -/
structure ImageLayer where
  image_id : String
  opacity : ℚ
deriving DecidableEq, Repr

/-- Scene content, mirroring the io-ts codec `SceneContent`: an optional
background id plus a field `image_layers` that is either an array or
`undefined`. -/
structure SceneContent where
  background_id : Option String
  image_layers : Option (List ImageLayer)
deriving DecidableEq, Repr

/-- AstroPix cross-reference info, mirroring the io-ts codec `AstroPixInfo`. -/
structure AstroPixInfo where
  publisher_id : String
  image_id : String
deriving DecidableEq, Repr

/-- A stored scene document, mirroring `interface MongoScene`. Dates are
modelled as natural numbers, previews as an association list. -/
structure MongoScene where
  handle_id : String
  creation_date : ℕ
  impressions : ℕ
  likes : ℕ
  clicks : ℕ
  shares : ℕ
  place : ScenePlace
  content : SceneContent
  previews : List (String × String)
  outgoing_url : Option String
  text : String
  published : Bool
  home_timeline_sort_key : Option ℚ
  astropix : Option AstroPixInfo
deriving DecidableEq, Repr

/-- JavaScript truthiness of an optional string field: present and nonempty. -/
def optStrTruthy : Option String → Bool
  | some s => decide (s ≠ "")
  | none => false

-- ------------------------------------------------------------------
-- PATCH /scene/:id (src/scenes.ts lines 625-798)
-- ------------------------------------------------------------------

/-- The content part of a patch payload, mirroring the io-ts codec
`SceneContentPatch` (`t.partial` with `background_id`). -/
structure SceneContentPatch where
  background_id : Option String
deriving DecidableEq, Repr

/-- A patch payload, mirroring the io-ts codec `ScenePatch` (`t.partial`,
every field optional). -/
structure ScenePatch where
  text : Option String
  outgoing_url : Option String
  place : Option ScenePlace
  content : Option SceneContentPatch
  published : Option Bool
  astropix : Option AstroPixInfo
deriving DecidableEq, Repr

/-- The MongoDB update document built by the patch handler: the `$set` map
(one optional slot per settable path) and the `$unset` map (only `astropix`
is ever unset). -/
structure UpdateOp where
  set_text : Option String
  set_outgoing_url : Option String
  set_place : Option ScenePlace
  set_background_id : Option String
  set_published : Option Bool
  set_astropix : Option AstroPixInfo
  unset_astropix : Bool
deriving DecidableEq, Repr

/-- The initial update document `{ "$set": {}, "$unset": {} }`. -/
def emptyOp : UpdateOp :=
  { set_text := none, set_outgoing_url := none, set_place := none,
    set_background_id := none, set_published := none, set_astropix := none,
    unset_astropix := false }

/-- Applying the update document to a stored scene (the effect of
`findOneAndUpdate` on the matched document). -/
def applyOp (s : MongoScene) (op : UpdateOp) : MongoScene :=
  let s := match op.set_text with | some t => { s with text := t } | none => s
  let s := match op.set_outgoing_url with | some u => { s with outgoing_url := some u } | none => s
  let s := match op.set_place with | some p => { s with place := p } | none => s
  let s := match op.set_background_id with
    | some bg => { s with content := { s.content with background_id := some bg } }
    | none => s
  let s := match op.set_published with | some b => { s with published := b } | none => s
  let s := match op.set_astropix with | some a => { s with astropix := some a } | none => s
  if op.unset_astropix then { s with astropix := none } else s

/-- An early error return inside the patch handler: HTTP status plus message. -/
structure PatchErr where
  status : ℕ
  message : String
deriving DecidableEq, Repr

/-- The handler's accumulating state: the `allowed` flag, the update
document under construction, and the `update_preview` flag. -/
structure PatchAcc where
  allowed : Bool
  op : UpdateOp
  update_preview : Bool
deriving DecidableEq, Repr

/-- Sequencing of patch steps: an error return short-circuits. -/
def pbind (x : Except PatchErr PatchAcc) (f : PatchAcc → Except PatchErr PatchAcc) :
    Except PatchErr PatchAcc :=
  match x with
  | .error e => .error e
  | .ok a => f a

/-- The `if (input.text)` block of the patch handler (lines 685-696). -/
def stepText (canEdit : Bool) (input : ScenePatch) (acc : PatchAcc) :
    Except PatchErr PatchAcc :=
  match input.text with
  | some t =>
    if t = "" then .ok acc
    else
      let allowed := acc.allowed && canEdit
      if t.length > 5000 then
        .error { status := 400, message := "Invalid input text: too long" }
      else
        .ok { acc with allowed := allowed, op := { acc.op with set_text := some t } }
  | none => .ok acc

/-- The `if (input.outgoing_url)` block of the patch handler (lines 698-709). -/
def stepOutgoingUrl (canEdit : Bool) (input : ScenePatch) (acc : PatchAcc) :
    Except PatchErr PatchAcc :=
  match input.outgoing_url with
  | some u =>
    if u = "" then .ok acc
    else
      let allowed := acc.allowed && canEdit
      if u.length > 5000 then
        .error { status := 400, message := "Invalid input outgoing_url: too long" }
      else
        .ok { acc with allowed := allowed, op := { acc.op with set_outgoing_url := some u } }
  | none => .ok acc

/-- The range validation of a patched place (lines 715-720), mirroring the
chain of `valid = valid && ...` assignments, including the duplicated
`valid` conjunct on the roll line of the source. -/
def placePatchValid (pi : ℚ) (p : ScenePlace) : Bool :=
  let valid := true
  let valid := valid && decide (p.ra_rad ≥ 0) && decide (p.ra_rad ≤ 2 * pi)
  let valid := valid && decide (p.dec_rad ≥ -0.5 * pi) && decide (p.dec_rad ≤ 0.5 * pi)
  let valid := valid && decide (p.roi_height_deg ≥ 0) && decide (p.roi_height_deg ≤ 360)
  let valid := valid && decide (p.roi_aspect_ratio ≥ 0.1) && decide (p.roi_aspect_ratio ≤ 10)
  let valid := valid && decide (p.roll_rad ≥ -pi) && valid && decide (p.roll_rad ≤ pi)
  valid

/-- The `if (input.place)` block of the patch handler (lines 711-730). -/
def stepPlace (canEdit : Bool) (pi : ℚ) (input : ScenePatch) (acc : PatchAcc) :
    Except PatchErr PatchAcc :=
  match input.place with
  | some p =>
    let allowed := acc.allowed && canEdit
    if placePatchValid pi p then
      .ok { allowed := allowed, op := { acc.op with set_place := some p }, update_preview := true }
    else
      .error { status := 400, message := "Invalid input place" }
  | none => .ok acc

/-- The `if (input.content)` block of the patch handler (lines 732-749);
`if (input.content.background_id)` is string truthiness again. -/
def stepContent (canEdit : Bool) (imageExists : String → Bool) (input : ScenePatch)
    (acc : PatchAcc) : Except PatchErr PatchAcc :=
  match input.content with
  | some c =>
    match c.background_id with
    | some bg =>
      if bg = "" then .ok acc
      else
        let allowed := acc.allowed && canEdit
        if imageExists bg then
          .ok { allowed := allowed,
                op := { acc.op with set_background_id := some bg },
                update_preview := true }
        else
          .error { status := 400,
                   message := "Invalid input content.background_id: not an image ID" }
    | none => .ok acc
  | none => .ok acc

/-- The `if (input.published !== undefined)` block (lines 751-754). -/
def stepPublished (canEdit : Bool) (input : ScenePatch) (acc : PatchAcc) :
    Except PatchErr PatchAcc :=
  match input.published with
  | some b =>
    .ok { acc with allowed := acc.allowed && canEdit,
                   op := { acc.op with set_published := some b } }
  | none => .ok acc

/-- The `if (input.astropix !== undefined)` block (lines 756-770): both
sub-fields falsy means removal, both truthy means set, otherwise a 400. -/
def stepAstropix (hasManageAstropix : Bool) (input : ScenePatch) (acc : PatchAcc) :
    Except PatchErr PatchAcc :=
  match input.astropix with
  | some a =>
    let allowed := acc.allowed && hasManageAstropix
    if a.publisher_id = "" && a.image_id = "" then
      .ok { acc with allowed := allowed, op := { acc.op with unset_astropix := true } }
    else if a.publisher_id != "" && a.image_id != "" then
      .ok { acc with allowed := allowed, op := { acc.op with set_astropix := some a } }
    else
      .error { status := 400,
               message := "Invalid input astropix: both publisher and image IDs must be defined" }
  | none => .ok acc

/-- The field-by-field body of the patch handler, from the decoded payload to
either an early 400 return or the final `(allowed, operation,
update_preview)` state. -/
def patchCore (canEdit hasManageAstropix : Bool) (imageExists : String → Bool)
    (pi : ℚ) (input : ScenePatch) : Except PatchErr PatchAcc :=
  pbind (stepText canEdit input { allowed := true, op := emptyOp, update_preview := false })
    fun a1 => pbind (stepOutgoingUrl canEdit input a1)
    fun a2 => pbind (stepPlace canEdit pi input a2)
    fun a3 => pbind (stepContent canEdit imageExists input a3)
    fun a4 => pbind (stepPublished canEdit input a4)
    fun a5 => stepAstropix hasManageAstropix input a5

/-- The observable outcome of a patch request on an existing scene: the HTTP
status, the error flag of the JSON body, the stored scene afterwards, and
whether a preview regeneration was requested. -/
structure PatchOutcome where
  status : ℕ
  error : Bool
  newScene : MongoScene
  update_preview : Bool
deriving DecidableEq, Repr

/-- The PATCH /scene/:id handler on an existing scene and a payload that
passed the io-ts decoder: run the field steps, then the conjunctive
`allowed` check (403), then the single `findOneAndUpdate` write. -/
def patchScene (canEdit hasManageAstropix : Bool) (imageExists : String → Bool)
    (pi : ℚ) (scene : MongoScene) (input : ScenePatch) : PatchOutcome :=
  match patchCore canEdit hasManageAstropix imageExists pi input with
  | .error e =>
    { status := e.status, error := true, newScene := scene, update_preview := false }
  | .ok acc =>
    if !acc.allowed then
      { status := 403, error := true, newScene := scene, update_preview := false }
    else
      { status := 200, error := false, newScene := applyOp scene acc.op,
        update_preview := acc.update_preview }

-- ------------------------------------------------------------------
-- POST /handle/:handle/scene (src/scenes.ts lines 269-385)
-- ------------------------------------------------------------------

/-- A decoded creation payload, mirroring the io-ts codec `SceneCreation`. -/
structure SceneCreationT where
  place : ScenePlace
  content : SceneContent
  outgoing_url : Option String
  text : String
  published : Option Bool
  astropix : Option AstroPixInfo
deriving DecidableEq, Repr

/-- The observable outcome of a creation request: HTTP status, error flag,
and the inserted scene document if any. -/
structure CreateOutcome where
  status : ℕ
  error : Bool
  inserted : Option MongoScene
deriving DecidableEq, Repr

/-- The new scene record built by the creation handler (lines 346-366):
counters at zero, previews empty, `published` defaulting to true, a falsy
(empty) `outgoing_url` not stored, `astropix` stored whenever defined. -/
def newSceneRec (handle_id : String) (now : ℕ) (input : SceneCreationT) : MongoScene :=
  let rec0 : MongoScene :=
    { handle_id := handle_id, creation_date := now, impressions := 0, likes := 0,
      clicks := 0, shares := 0, place := input.place, content := input.content,
      text := input.text, previews := [], published := input.published.getD true,
      outgoing_url := none, home_timeline_sort_key := none, astropix := none }
  let rec1 := if optStrTruthy input.outgoing_url then
    { rec0 with outgoing_url := input.outgoing_url } else rec0
  match input.astropix with
  | some a => { rec1 with astropix := some a }
  | none => rec1

/-- The POST /handle/:handle/scene handler, from the point where the handle
was found and the payload passed the io-ts decoder: the astropix role gate
(lines 315-321), the image-layer existence loop with its
absent-layers 400 (lines 323-342), then the insert. The `addScenes`
capability check (lines 297-301) precedes all of this. -/
def createScene (addScenesAllowed hasManageAstropix : Bool)
    (imageExists : String → Bool) (handle_id : String) (now : ℕ)
    (input : SceneCreationT) : CreateOutcome :=
  if !addScenesAllowed then
    { status := 403, error := true, inserted := none }
  else if input.astropix.isSome && !hasManageAstropix then
    { status := 403, error := true, inserted := none }
  else
    match input.content.image_layers with
    | some layers =>
      if layers.all (fun l => imageExists l.image_id) then
        { status := 200, error := false, inserted := some (newSceneRec handle_id now input) }
      else
        { status := 400, error := true, inserted := none }
    | none =>
      { status := 400, error := true, inserted := none }

-- ------------------------------------------------------------------
-- sceneToPlace and GET /scene/:id/place.wtml (src/scenes.ts 129-173, 447-486)
-- ------------------------------------------------------------------

/-- The constant `R2D = 180.0 / Math.PI` (line 31). -/
def R2D (pi : ℚ) : ℚ := 180 / pi

/-- The constant `R2H = 12.0 / Math.PI` (line 32). -/
def R2H (pi : ℚ) : ℚ := 12 / pi

/-- The attributes of the generated legacy Place element, plus the image id
of the ForegroundImageSet child if one was emitted. -/
structure PlaceXml where
  dec : ℚ
  ra : ℚ
  rotation : ℚ
  zoomLevel : ℚ
  foreground : Option String
deriving DecidableEq, Repr

/-- `sceneToPlace` (lines 135-173): always writes the coordinate attributes;
emits a ForegroundImageSet only when the content has exactly one image
layer, and throws (here: `.error`) only when that single layer's image is
missing from the image store. -/
def sceneToPlace (imageExists : String → Bool) (pi : ℚ) (scene : MongoScene) :
    Except String PlaceXml :=
  let base : PlaceXml :=
    { dec := scene.place.dec_rad * R2D pi,
      ra := scene.place.ra_rad * R2H pi,
      rotation := scene.place.roll_rad * R2D pi,
      zoomLevel := scene.place.roi_height_deg * 7.2,
      foreground := none }
  match scene.content.image_layers with
  | some layers =>
    if h : layers.length = 1 then
      let l := layers.get ⟨0, by omega⟩
      if imageExists l.image_id then .ok { base with foreground := some l.image_id }
      else .error "database consistency failure: no image"
    else .ok base
  | none => .ok base

/-- Outcome of GET /scene/:id/place.wtml. -/
inductive WtmlOutcome where
  | notFound
  | notRepresentable
  | ok (pl : PlaceXml)
deriving DecidableEq, Repr

/-- The GET /scene/:id/place.wtml handler (lines 448-486): 404 when the
scene does not exist, 404 when `sceneToPlace` throws, 200 XML otherwise. -/
def placeWtml (imageExists : String → Bool) (pi : ℚ) (scene : Option MongoScene) :
    WtmlOutcome :=
  match scene with
  | none => .notFound
  | some s =>
    match sceneToPlace imageExists pi s with
    | .error _ => .notRepresentable
    | .ok pl => .ok pl

/-- The HTTP status of a place.wtml outcome. -/
def wtmlStatus : WtmlOutcome → ℕ
  | .notFound => 404
  | .notRepresentable => 404
  | .ok _ => 200

-- ------------------------------------------------------------------
-- POST /scene/:id/shares/:type (src/scenes.ts lines 566-597)
-- ------------------------------------------------------------------

/-- The valid share types (line 93). -/
def sceneShareTypes : List String := ["facebook", "linkedin", "twitter", "email", "copy"]

/-- `isSceneShareType` (lines 96-98). -/
def isSceneShareType (type : String) : Bool := sceneShareTypes.contains type

/-- The observable outcome of a share request: status, error flag, the
`success` field of a 200 body, and whether a share event was logged. -/
structure ShareOutcome where
  status : ℕ
  error : Bool
  success : Option Bool
  logged : Bool
deriving DecidableEq, Repr

/-- The POST /scene/:id/shares/:type handler (lines 567-597): reject invalid
types with 400, 404 when the scene is missing; otherwise log a share event
exactly when `isValidSession` holds, and answer 200 with the literal
`success: true` that appears on line 585 of the source. -/
def postShare (validSession : Bool) (sceneExists : Bool) (type : String) :
    ShareOutcome :=
  if !isSceneShareType type then
    { status := 400, error := true, success := none, logged := false }
  else if sceneExists then
    { status := 200, error := false, success := some true, logged := validSession }
  else
    { status := 404, error := true, success := none, logged := false }

-- ------------------------------------------------------------------
-- GET /scenes/home-timeline (src/scenes.ts lines 800-845)
-- ------------------------------------------------------------------

/-- The constant `page_size = 8` (line 802). -/
def pageSize : ℕ := 8

/-- The query filter `{ home_timeline_sort_key: { $gte: 0 }, published:
true }`: a document matches iff the sort key exists and is at least 0 and
the scene is published. -/
def homeTimelineFilter (s : MongoScene) : Bool :=
  (match s.home_timeline_sort_key with
   | some k => decide (0 ≤ k)
   | none => false) && s.published

/-- The sort key used by `.sort({ home_timeline_sort_key: 1 })` on the
filtered documents (all of which carry a key). -/
def sortKeyD (s : MongoScene) : ℚ := s.home_timeline_sort_key.getD 0

/-- The GET /scenes/home-timeline handler query pipeline over the stored
scene collection: filter, ascending sort by ranking key, skip
`page * page_size`, limit `page_size`. -/
def homeTimelinePage (scenes : List MongoScene) (page : ℕ) : List MongoScene :=
  ((((scenes.filter homeTimelineFilter).insertionSort
      (fun a b => sortKeyD a ≤ sortKeyD b)).drop (page * pageSize)).take pageSize)

-- ------------------------------------------------------------------
-- GET /scene/:id/nearby-global (src/scenes.ts lines 990-1019)
-- ------------------------------------------------------------------

/-- The observable outcome of a nearby-global request: status, error flag,
and the result list of (hydrated) scene ids if any. -/
structure NearbyOutcome where
  status : ℕ
  error : Bool
  results : Option (List String)
deriving DecidableEq, Repr

/-- The GET /scene/:id/nearby-global handler (lines 990-1019):
`tessellations.findOne({name: "global"})` missing answers 500; a missing
`size` query parameter answers 400; otherwise the tessellation lookup
produces the nearby ids, which are hydrated and returned. -/
def nearbyGlobal (globalTessellationExists : Bool) (size : Option ℕ)
    (nearbyIDs : ℕ → List String) : NearbyOutcome :=
  if globalTessellationExists = false then
    { status := 500, error := true, results := none }
  else
    match size with
    | none => { status := 400, error := true, results := none }
    | some n => { status := 200, error := false, results := some (nearbyIDs n) }

-- ------------------------------------------------------------------
-- Derived predicates and concrete fixtures
-- ------------------------------------------------------------------

/-- Whether a patch payload touches `content.background_id` in the sense of
the handler (content present and background_id truthy). -/
def contentBgTouched (input : ScenePatch) : Bool :=
  match input.content with
  | some c => optStrTruthy c.background_id
  | none => false

/-- Whether a patch payload touches any field whose mutation requires the
`edit` capability: `text`, `outgoing_url`, `place`, `content.background_id`
or `published`. -/
def touchesEditField (input : ScenePatch) : Bool :=
  optStrTruthy input.text || optStrTruthy input.outgoing_url || input.place.isSome ||
  contentBgTouched input || input.published.isSome

/-- The range invariants on a place as the specification states them:
ra in [0, 2 pi], dec in [-pi/2, pi/2], roll in [-pi, pi], roi height in
[0, 360], roi aspect ratio in [0.1, 10]. -/
def placeInRanges (pi : ℚ) (p : ScenePlace) : Prop :=
  (0 ≤ p.ra_rad ∧ p.ra_rad ≤ 2 * pi) ∧
  (-(pi / 2) ≤ p.dec_rad ∧ p.dec_rad ≤ pi / 2) ∧
  (-pi ≤ p.roll_rad ∧ p.roll_rad ≤ pi) ∧
  (0 ≤ p.roi_height_deg ∧ p.roi_height_deg ≤ 360) ∧
  (1 / 10 ≤ p.roi_aspect_ratio ∧ p.roi_aspect_ratio ≤ 10)

/-- A patch payload that touches only `place`. -/
def patchPlaceOnly (p : ScenePlace) : ScenePatch :=
  { text := none, outgoing_url := none, place := some p, content := none,
    published := none, astropix := none }

/-- A patch payload that touches only `astropix`. -/
def patchAstropixOnly (a : AstroPixInfo) : ScenePatch :=
  { text := none, outgoing_url := none, place := none, content := none,
    published := none, astropix := some a }

/-- A concrete in-range place (witness input). -/
def p0 : ScenePlace :=
  { ra_rad := 1, dec_rad := 0, roll_rad := 0, roi_height_deg := 4, roi_aspect_ratio := 1 }

/-- A concrete place violating the ra lower bound (counterexample input). -/
def pBad : ScenePlace :=
  { ra_rad := -1, dec_rad := 0, roll_rad := 0, roi_height_deg := 4, roi_aspect_ratio := 1 }

/-- A concrete stored scene with zero image layers. -/
def sc0 : MongoScene :=
  { handle_id := "h1", creation_date := 0, impressions := 0, likes := 0, clicks := 0,
    shares := 0,
    place := { ra_rad := 0, dec_rad := 0, roll_rad := 0, roi_height_deg := 1,
               roi_aspect_ratio := 1 },
    content := { background_id := none, image_layers := some [] },
    previews := [], outgoing_url := none, text := "t", published := true,
    home_timeline_sort_key := none, astropix := none }

/-- A concrete stored scene with distinct place coordinates (witness input
for the legacy Place projection). -/
def scW : MongoScene :=
  { sc0 with place := { ra_rad := 1, dec_rad := 2, roll_rad := 3, roi_height_deg := 4,
                        roi_aspect_ratio := 5 } }

/-- The Place attributes that `sceneToPlace` produces for `scW` at `pi = 3`. -/
def plW : PlaceXml :=
  { dec := (2 : ℚ) * (180 / 3), ra := (1 : ℚ) * (12 / 3), rotation := (3 : ℚ) * (180 / 3),
    zoomLevel := (4 : ℚ) * 7.2, foreground := none }

/-- A concrete stored scene with two image layers. -/
def scTwo : MongoScene :=
  { sc0 with content := { background_id := none,
                          image_layers := some [{ image_id := "i1", opacity := 1 },
                                                { image_id := "i2", opacity := 1 }] } }

/-- A concrete stored scene with exactly one image layer whose image is
missing from the image store. -/
def scOne : MongoScene :=
  { sc0 with content := { background_id := none,
                          image_layers := some [{ image_id := "i1", opacity := 1 }] } }

/-- A fully populated AstroPix pair (witness input). -/
def apixFull : AstroPixInfo := { publisher_id := "pub", image_id := "img" }

/-- An AstroPix pair with both sub-fields empty (removal instruction). -/
def apixEmpty : AstroPixInfo := { publisher_id := "", image_id := "" }

/-- An AstroPix pair with exactly one sub-field empty (invalid). -/
def apixHalf : AstroPixInfo := { publisher_id := "pub", image_id := "" }

/-- A concrete creation payload whose content has an empty image-layer
list. -/
def createInputEmptyLayers : SceneCreationT :=
  { place := p0,
    content := { background_id := none, image_layers := some [] },
    outgoing_url := none, text := "hello", published := none, astropix := none }

/-- A concrete creation payload whose content has `image_layers` absent. -/
def createInputNoLayers : SceneCreationT :=
  { place := p0,
    content := { background_id := none, image_layers := none },
    outgoing_url := none, text := "hello", published := none, astropix := none }

/-- A concrete published scene carrying a home-timeline ranking key (witness
input). -/
def scH : MongoScene :=
  { sc0 with published := true, home_timeline_sort_key := some 5 }

-- ------------------------------------------------------------------
-- Helper lemmas about the patch pipeline
-- ------------------------------------------------------------------

theorem pbind_ok {x : Except PatchErr PatchAcc} {f : PatchAcc → Except PatchErr PatchAcc}
    {b : PatchAcc} (h : pbind x f = .ok b) : ∃ a, x = .ok a ∧ f a = .ok b := by
  cases hx : x with
  | error e => rw [hx] at h; simp [pbind] at h
  | ok a => rw [hx] at h; exact ⟨a, rfl, h⟩

theorem pbind_error {x : Except PatchErr PatchAcc} {f : PatchAcc → Except PatchErr PatchAcc}
    {e : PatchErr} (h : pbind x f = .error e) :
    x = .error e ∨ ∃ a, x = .ok a ∧ f a = .error e := by
  cases hx : x with
  | error e2 => rw [hx] at h; exact .inl h
  | ok a => rw [hx] at h; exact .inr ⟨a, rfl, h⟩

theorem stepText_ok_allowed {canEdit : Bool} {input : ScenePatch} {acc acc' : PatchAcc}
    (h : stepText canEdit input acc = .ok acc') :
    acc'.allowed = (acc.allowed && (!optStrTruthy input.text || canEdit)) := by
  cases ht : input.text with
  | none => simp only [stepText, ht] at h; cases h; simp [ht, optStrTruthy]
  | some t =>
    simp only [stepText, ht] at h
    by_cases he : t = ""
    · rw [if_pos he] at h; cases h; simp [ht, optStrTruthy, he]
    · rw [if_neg he] at h
      by_cases hl : t.length > 5000
      · rw [if_pos hl] at h; simp at h
      · rw [if_neg hl] at h; cases h; simp [ht, optStrTruthy, he]

theorem stepOutgoingUrl_ok_allowed {canEdit : Bool} {input : ScenePatch} {acc acc' : PatchAcc}
    (h : stepOutgoingUrl canEdit input acc = .ok acc') :
    acc'.allowed = (acc.allowed && (!optStrTruthy input.outgoing_url || canEdit)) := by
  cases ht : input.outgoing_url with
  | none => simp only [stepOutgoingUrl, ht] at h; cases h; simp [ht, optStrTruthy]
  | some u =>
    simp only [stepOutgoingUrl, ht] at h
    by_cases he : u = ""
    · rw [if_pos he] at h; cases h; simp [ht, optStrTruthy, he]
    · rw [if_neg he] at h
      by_cases hl : u.length > 5000
      · rw [if_pos hl] at h; simp at h
      · rw [if_neg hl] at h; cases h; simp [ht, optStrTruthy, he]

theorem stepPlace_ok_allowed {canEdit : Bool} {pi : ℚ} {input : ScenePatch} {acc acc' : PatchAcc}
    (h : stepPlace canEdit pi input acc = .ok acc') :
    acc'.allowed = (acc.allowed && (!input.place.isSome || canEdit)) := by
  cases hp : input.place with
  | none => simp only [stepPlace, hp] at h; cases h; simp [hp]
  | some p =>
    simp only [stepPlace, hp] at h
    by_cases hv : placePatchValid pi p = true
    · rw [if_pos hv] at h; cases h; simp [hp]
    · rw [if_neg hv] at h; simp at h

theorem stepContent_ok_allowed {canEdit : Bool} {imageExists : String → Bool}
    {input : ScenePatch} {acc acc' : PatchAcc}
    (h : stepContent canEdit imageExists input acc = .ok acc') :
    acc'.allowed = (acc.allowed && (!contentBgTouched input || canEdit)) := by
  cases hc : input.content with
  | none => simp only [stepContent, hc] at h; cases h; simp [contentBgTouched, hc]
  | some c =>
    simp only [stepContent, hc] at h
    cases hbg : c.background_id with
    | none => simp only [hbg] at h; cases h; simp [contentBgTouched, hc, hbg, optStrTruthy]
    | some bg =>
      simp only [hbg] at h
      by_cases he : bg = ""
      · rw [if_pos he] at h; cases h; simp [contentBgTouched, hc, hbg, optStrTruthy, he]
      · rw [if_neg he] at h
        by_cases him : imageExists bg = true
        · rw [if_pos him] at h; cases h
          simp [contentBgTouched, hc, hbg, optStrTruthy, he]
        · rw [if_neg him] at h; simp at h

theorem stepPublished_ok_allowed {canEdit : Bool} {input : ScenePatch} {acc acc' : PatchAcc}
    (h : stepPublished canEdit input acc = .ok acc') :
    acc'.allowed = (acc.allowed && (!input.published.isSome || canEdit)) := by
  cases hp : input.published with
  | none => simp only [stepPublished, hp] at h; cases h; simp [hp]
  | some b => simp only [stepPublished, hp] at h; cases h; simp [hp]

theorem stepAstropix_ok_allowed {hasManageAstropix : Bool} {input : ScenePatch}
    {acc acc' : PatchAcc} (h : stepAstropix hasManageAstropix input acc = .ok acc') :
    acc'.allowed = (acc.allowed && (!input.astropix.isSome || hasManageAstropix)) := by
  cases ha : input.astropix with
  | none => simp only [stepAstropix, ha] at h; cases h; simp [ha]
  | some a =>
    simp only [stepAstropix, ha] at h
    split at h
    · cases h; simp [ha]
    · split at h
      · cases h; simp [ha]
      · simp at h

theorem stepText_error_status {canEdit : Bool} {input : ScenePatch} {acc : PatchAcc}
    {e : PatchErr} (h : stepText canEdit input acc = .error e) : e.status = 400 := by
  unfold stepText at h
  split at h
  · split at h
    · simp at h
    · split at h
      · cases h; rfl
      · simp at h
  · simp at h

theorem stepOutgoingUrl_error_status {canEdit : Bool} {input : ScenePatch} {acc : PatchAcc}
    {e : PatchErr} (h : stepOutgoingUrl canEdit input acc = .error e) : e.status = 400 := by
  unfold stepOutgoingUrl at h
  split at h
  · split at h
    · simp at h
    · split at h
      · cases h; rfl
      · simp at h
  · simp at h

theorem stepPlace_error_status {canEdit : Bool} {pi : ℚ} {input : ScenePatch} {acc : PatchAcc}
    {e : PatchErr} (h : stepPlace canEdit pi input acc = .error e) : e.status = 400 := by
  unfold stepPlace at h
  split at h
  · split at h
    · simp at h
    · cases h; rfl
  · simp at h

theorem stepContent_error_status {canEdit : Bool} {imageExists : String → Bool}
    {input : ScenePatch} {acc : PatchAcc} {e : PatchErr}
    (h : stepContent canEdit imageExists input acc = .error e) : e.status = 400 := by
  unfold stepContent at h
  split at h
  · split at h
    · split at h
      · simp at h
      · split at h
        · simp at h
        · cases h; rfl
    · simp at h
  · simp at h

theorem stepPublished_error_status {canEdit : Bool} {input : ScenePatch} {acc : PatchAcc}
    {e : PatchErr} (h : stepPublished canEdit input acc = .error e) : e.status = 400 := by
  unfold stepPublished at h
  split at h
  · simp at h
  · simp at h

theorem stepAstropix_error_status {hasManageAstropix : Bool} {input : ScenePatch}
    {acc : PatchAcc} {e : PatchErr} (h : stepAstropix hasManageAstropix input acc = .error e) :
    e.status = 400 := by
  unfold stepAstropix at h
  split at h
  · split at h
    · simp at h
    · split at h
      · simp at h
      · cases h; rfl
  · simp at h

theorem patchCore_ok_allowed {canEdit hasManageAstropix : Bool} {imageExists : String → Bool}
    {pi : ℚ} {input : ScenePatch} {acc : PatchAcc}
    (h : patchCore canEdit hasManageAstropix imageExists pi input = .ok acc) :
    acc.allowed = ((!optStrTruthy input.text || canEdit) &&
      (!optStrTruthy input.outgoing_url || canEdit) &&
      (!input.place.isSome || canEdit) &&
      (!contentBgTouched input || canEdit) &&
      (!input.published.isSome || canEdit) &&
      (!input.astropix.isSome || hasManageAstropix)) := by
  unfold patchCore at h
  obtain ⟨a1, h1, h⟩ := pbind_ok h
  obtain ⟨a2, h2, h⟩ := pbind_ok h
  obtain ⟨a3, h3, h⟩ := pbind_ok h
  obtain ⟨a4, h4, h⟩ := pbind_ok h
  obtain ⟨a5, h5, h6⟩ := pbind_ok h
  rw [stepAstropix_ok_allowed h6, stepPublished_ok_allowed h5, stepContent_ok_allowed h4,
    stepPlace_ok_allowed h3, stepOutgoingUrl_ok_allowed h2, stepText_ok_allowed h1]
  simp [Bool.and_assoc]

theorem patchCore_error_status {canEdit hasManageAstropix : Bool} {imageExists : String → Bool}
    {pi : ℚ} {input : ScenePatch} {e : PatchErr}
    (h : patchCore canEdit hasManageAstropix imageExists pi input = .error e) :
    e.status = 400 := by
  unfold patchCore at h
  rcases pbind_error h with h | ⟨a1, _, h⟩
  · exact stepText_error_status h
  rcases pbind_error h with h | ⟨a2, _, h⟩
  · exact stepOutgoingUrl_error_status h
  rcases pbind_error h with h | ⟨a3, _, h⟩
  · exact stepPlace_error_status h
  rcases pbind_error h with h | ⟨a4, _, h⟩
  · exact stepContent_error_status h
  rcases pbind_error h with h | ⟨a5, _, h⟩
  · exact stepPublished_error_status h
  exact stepAstropix_error_status h

theorem patchCore_ok_place {canEdit hasManageAstropix : Bool} {imageExists : String → Bool}
    {pi : ℚ} {input : ScenePatch} {acc : PatchAcc} {p : ScenePlace}
    (h : patchCore canEdit hasManageAstropix imageExists pi input = .ok acc)
    (hp : input.place = some p) : placePatchValid pi p = true := by
  unfold patchCore at h
  obtain ⟨a1, h1, h⟩ := pbind_ok h
  obtain ⟨a2, h2, h⟩ := pbind_ok h
  obtain ⟨a3, h3, h⟩ := pbind_ok h
  simp only [stepPlace, hp] at h3
  by_cases hv : placePatchValid pi p = true
  · exact hv
  · rw [if_neg hv] at h3; simp at h3

theorem patchCore_ok_astropix {canEdit hasManageAstropix : Bool} {imageExists : String → Bool}
    {pi : ℚ} {input : ScenePatch} {acc : PatchAcc} {a : AstroPixInfo}
    (h : patchCore canEdit hasManageAstropix imageExists pi input = .ok acc)
    (ha : input.astropix = some a) :
    (a.publisher_id = "" ∧ a.image_id = "") ∨ (a.publisher_id ≠ "" ∧ a.image_id ≠ "") := by
  unfold patchCore at h
  obtain ⟨a1, h1, h⟩ := pbind_ok h
  obtain ⟨a2, h2, h⟩ := pbind_ok h
  obtain ⟨a3, h3, h⟩ := pbind_ok h
  obtain ⟨a4, h4, h⟩ := pbind_ok h
  obtain ⟨a5, h5, h6⟩ := pbind_ok h
  simp only [stepAstropix, ha] at h6
  split at h6
  · rename_i hcond
    simp only [Bool.and_eq_true, decide_eq_true_eq] at hcond
    exact .inl hcond
  · split at h6
    · rename_i hcond
      simp only [Bool.and_eq_true, bne_iff_ne, ne_eq] at hcond
      exact .inr hcond
    · simp at h6

theorem placePatchValid_iff (pi : ℚ) (p : ScenePlace) :
    placePatchValid pi p = true ↔ placeInRanges pi p := by
  unfold placePatchValid placeInRanges
  rw [show (-0.5 : ℚ) * pi = -(pi / 2) from by ring,
      show (0.5 : ℚ) * pi = pi / 2 from by ring,
      show (0.1 : ℚ) = 1 / 10 from by norm_num]
  simp only [Bool.true_and, Bool.and_eq_true, decide_eq_true_eq, ge_iff_le]
  constructor
  · intro h
    tauto
  · intro h
    tauto

-- ------------------------------------------------------------------
-- Claim theorems
-- ------------------------------------------------------------------

/-- Claim C1, counterexample: a patch by a principal without the edit
capability that touches only `place` (with an out-of-range coordinate) is
rejected with status 400, not with Forbidden 403 as the claim states, even
though a touched field's required capability is not held. -/
theorem patch_forbidden_counterexample :
    touchesEditField (patchPlaceOnly pBad) = true ∧
    (patchScene false true (fun _ => true) 3 sc0 (patchPlaceOnly pBad)).status = 400 ∧
    (patchScene false true (fun _ => true) 3 sc0 (patchPlaceOnly pBad)).status ≠ 403 := by
  decide

/-- Claim C1 (amended): for every PATCH /scene/:id request on an existing
scene, if any touched field's required capability is not held (edit for
text, outgoing_url, place, content.background_id, published; the
manage-astropix role for astropix), the whole request is rejected — with
Forbidden (403) whenever no per-field validation failure preempts it with a
400 — and no field of the stored scene is written; in particular a request
touching one authorized and one unauthorized field writes neither. -/
theorem patch_unauthorized_field_atomic (canEdit hasManageAstropix : Bool)
    (imageExists : String → Bool) (pi : ℚ) (scene : MongoScene) (input : ScenePatch)
    (h : (touchesEditField input = true ∧ canEdit = false) ∨
         (input.astropix.isSome = true ∧ hasManageAstropix = false)) :
    (patchScene canEdit hasManageAstropix imageExists pi scene input).error = true ∧
    (patchScene canEdit hasManageAstropix imageExists pi scene input).newScene = scene ∧
    ((patchScene canEdit hasManageAstropix imageExists pi scene input).status = 403 ∨
     (patchScene canEdit hasManageAstropix imageExists pi scene input).status = 400) ∧
    (∀ acc, patchCore canEdit hasManageAstropix imageExists pi input = .ok acc →
      (patchScene canEdit hasManageAstropix imageExists pi scene input).status = 403) := by
  cases hc : patchCore canEdit hasManageAstropix imageExists pi input with
  | error e =>
    have hst := patchCore_error_status hc
    refine ⟨?_, ?_, ?_, ?_⟩
    · simp [patchScene, hc]
    · simp [patchScene, hc]
    · right; simp [patchScene, hc, hst]
    · intro acc hacc
      exact Except.noConfusion hacc
  | ok acc =>
    have hallow := patchCore_ok_allowed hc
    have hfalse : acc.allowed = false := by
      rcases h with ⟨ht, hcE⟩ | ⟨ha, hM⟩
      · rw [hallow, hcE]
        simp only [touchesEditField, Bool.or_eq_true] at ht
        rcases ht with (((h1 | h1) | h1) | h1) | h1 <;> simp [h1]
      · rw [hallow, ha, hM]
        simp
    simp only [patchScene, hc, hfalse]
    exact ⟨rfl, rfl, .inl rfl, fun acc2 _ => rfl⟩

/-- Claim C1, witness: a concrete unauthorized patch touching only a valid
`place` is rejected with 403 and writes nothing. -/
theorem patch_unauthorized_field_atomic_witness :
    (patchScene false true (fun _ => true) 3 sc0 (patchPlaceOnly p0)).error = true ∧
    (patchScene false true (fun _ => true) 3 sc0 (patchPlaceOnly p0)).newScene = sc0 ∧
    ((patchScene false true (fun _ => true) 3 sc0 (patchPlaceOnly p0)).status = 403 ∨
     (patchScene false true (fun _ => true) 3 sc0 (patchPlaceOnly p0)).status = 400) ∧
    (∀ acc, patchCore false true (fun _ => true) 3 (patchPlaceOnly p0) = .ok acc →
      (patchScene false true (fun _ => true) 3 sc0 (patchPlaceOnly p0)).status = 403) :=
  patch_unauthorized_field_atomic false true (fun _ => true) 3 sc0 (patchPlaceOnly p0)
    (.inl ⟨by decide, rfl⟩)

/-- Claim C4: a patched `place` whose coordinates all lie within the stated
ranges is accepted (with only `place` touched by an edit-capable principal,
the patch succeeds and stores the place), and a `place` violating any range
bound makes the whole patch fail with 400 and leaves the stored scene
unchanged. -/
theorem patch_place_range_gate (pi : ℚ) (scene : MongoScene) (p : ScenePlace) :
    (placeInRanges pi p → ∀ (hasManageAstropix : Bool) (imageExists : String → Bool),
      patchScene true hasManageAstropix imageExists pi scene (patchPlaceOnly p) =
        { status := 200, error := false, newScene := { scene with place := p },
          update_preview := true }) ∧
    (¬ placeInRanges pi p → ∀ (canEdit hasManageAstropix : Bool)
      (imageExists : String → Bool) (input : ScenePatch), input.place = some p →
      (patchScene canEdit hasManageAstropix imageExists pi scene input).status = 400 ∧
      (patchScene canEdit hasManageAstropix imageExists pi scene input).error = true ∧
      (patchScene canEdit hasManageAstropix imageExists pi scene input).newScene = scene) := by
  constructor
  · intro hIn hasAp imgEx
    have hv : placePatchValid pi p = true := (placePatchValid_iff pi p).mpr hIn
    simp only [patchScene, patchCore, pbind, stepText, stepOutgoingUrl, stepPlace,
      stepContent, stepPublished, stepAstropix, patchPlaceOnly, hv]
    rfl
  · intro hNot canEdit hasAp imgEx input hp
    cases hc : patchCore canEdit hasAp imgEx pi input with
    | error e =>
      have hst := patchCore_error_status hc
      simp [patchScene, hc, hst]
    | ok acc =>
      exact absurd ((placePatchValid_iff pi p).mp (patchCore_ok_place hc hp)) hNot

/-- Claim C4, witness: a concrete in-range place is accepted and stored. -/
theorem patch_place_range_gate_witness :
    placeInRanges 3 p0 ∧
    patchScene true true (fun _ => true) 3 sc0 (patchPlaceOnly p0) =
      { status := 200, error := false, newScene := { sc0 with place := p0 },
        update_preview := true } :=
  have hIn : placeInRanges 3 p0 := by norm_num [placeInRanges, p0]
  ⟨hIn, (patch_place_range_gate 3 sc0 p0).1 hIn true (fun _ => true)⟩

/-- Claim C10: a patch whose `text` or `outgoing_url` field is present but
equal to the empty string behaves exactly as if that field were absent: the
whole observable outcome (status, error flag, stored scene, preview
request) is identical, so no capability is demanded for it, no validation
runs on it, and the stored value cannot be cleared this way. -/
theorem patch_empty_string_field_ignored (canEdit hasManageAstropix : Bool)
    (imageExists : String → Bool) (pi : ℚ) (scene : MongoScene) (input : ScenePatch) :
    patchScene canEdit hasManageAstropix imageExists pi scene
        { input with text := some "" } =
      patchScene canEdit hasManageAstropix imageExists pi scene
        { input with text := none } ∧
    patchScene canEdit hasManageAstropix imageExists pi scene
        { input with outgoing_url := some "" } =
      patchScene canEdit hasManageAstropix imageExists pi scene
        { input with outgoing_url := none } := by
  constructor <;> rfl

/-- Claim C5: patching `astropix` with both sub-fields non-empty stores the
pair; with both sub-fields empty it removes the stored association; with
exactly one sub-field empty the request fails with 400 and persists no
change — so the stored astropix is always fully present or fully absent. -/
theorem patch_astropix_atomic_pair (pi : ℚ) (scene : MongoScene) (a : AstroPixInfo)
    (canEdit : Bool) (imageExists : String → Bool) :
    (a.publisher_id ≠ "" → a.image_id ≠ "" →
      patchScene canEdit true imageExists pi scene (patchAstropixOnly a) =
        { status := 200, error := false, newScene := { scene with astropix := some a },
          update_preview := false }) ∧
    (a.publisher_id = "" → a.image_id = "" →
      patchScene canEdit true imageExists pi scene (patchAstropixOnly a) =
        { status := 200, error := false, newScene := { scene with astropix := none },
          update_preview := false }) ∧
    (∀ (canEdit2 hasManageAstropix : Bool) (input : ScenePatch),
      input.astropix = some a →
      ((a.publisher_id = "" ∧ a.image_id ≠ "") ∨ (a.publisher_id ≠ "" ∧ a.image_id = "")) →
      (patchScene canEdit2 hasManageAstropix imageExists pi scene input).status = 400 ∧
      (patchScene canEdit2 hasManageAstropix imageExists pi scene input).error = true ∧
      (patchScene canEdit2 hasManageAstropix imageExists pi scene input).newScene = scene) := by
  refine ⟨?_, ?_, ?_⟩
  · intro h1 h2
    simp [patchScene, patchCore, pbind, stepText, stepOutgoingUrl, stepPlace, stepContent,
      stepPublished, stepAstropix, patchAstropixOnly, applyOp, emptyOp, h1, h2]
  · intro h1 h2
    simp [patchScene, patchCore, pbind, stepText, stepOutgoingUrl, stepPlace, stepContent,
      stepPublished, stepAstropix, patchAstropixOnly, applyOp, emptyOp, h1, h2]
  · intro canEdit2 hasAp input ha hone
    cases hc : patchCore canEdit2 hasAp imageExists pi input with
    | error e =>
      have hst := patchCore_error_status hc
      simp [patchScene, hc, hst]
    | ok acc =>
      rcases patchCore_ok_astropix hc ha with ⟨hp, hi⟩ | ⟨hp, hi⟩ <;>
        rcases hone with ⟨h1, h2⟩ | ⟨h1, h2⟩ <;> tauto

/-- Claim C5, witness: a full pair is stored, and a half-empty pair is
rejected with 400. -/
theorem patch_astropix_atomic_pair_witness :
    (apixFull.publisher_id ≠ "" ∧ apixFull.image_id ≠ "" ∧
     patchScene true true (fun _ => true) 3 sc0 (patchAstropixOnly apixFull) =
       { status := 200, error := false, newScene := { sc0 with astropix := some apixFull },
         update_preview := false }) ∧
    (patchScene false false (fun _ => true) 3 sc0 (patchAstropixOnly apixHalf)).status = 400 :=
  ⟨⟨by decide, by decide,
    (patch_astropix_atomic_pair 3 sc0 apixFull true (fun _ => true)).1
      (by decide) (by decide)⟩,
   ((patch_astropix_atomic_pair 3 sc0 apixHalf true (fun _ => true)).2.2
      false false (patchAstropixOnly apixHalf) rfl (by decide)).1⟩

/-- Claim C2: the creation handler rejects a payload with `image_layers`
absent (400, nothing inserted) but accepts one with an empty `image_layers`
list, inserting a scene with zero visual layers — contradicting the
at-least-one-layer requirement. -/
theorem createScene_empty_layers_accepted :
    createScene true true (fun _ => true) "h1" 0 createInputEmptyLayers =
      { status := 200, error := false,
        inserted := some (newSceneRec "h1" 0 createInputEmptyLayers) } ∧
    (newSceneRec "h1" 0 createInputEmptyLayers).content.image_layers = some [] ∧
    (createScene true true (fun _ => true) "h1" 0 createInputNoLayers).status = 400 ∧
    (createScene true true (fun _ => true) "h1" 0 createInputNoLayers).inserted = none :=
  ⟨rfl, rfl, rfl, rfl⟩

/-- Claim C3: a stored scene with zero image layers, and one with two image
layers, are both rendered by GET /scene/:id/place.wtml with status 200 (a
Place with no foreground image set) rather than the claimed 404; the only
representation failure mapped to 404 arises when a single-layer scene's
image is missing from the image store. -/
theorem placeWtml_not_single_layer_still_200 :
    wtmlStatus (placeWtml (fun _ => false) 3 (some sc0)) = 200 ∧
    wtmlStatus (placeWtml (fun _ => true) 3 (some scTwo)) = 200 ∧
    placeWtml (fun _ => false) 3 (some scOne) = .notRepresentable :=
  ⟨rfl, rfl, rfl⟩

/-- Claim C6: the share handler logs a share event exactly when the session
is valid (no per-session dedup state exists), but the 200 response body
always carries `success: true` — even when the session was invalid and
nothing was logged, contradicting the claim that `success` reports whether
the share was recorded. -/
theorem postShare_success_always_true :
    (∀ validSession : Bool, (postShare validSession true "facebook").logged = validSession) ∧
    postShare false true "facebook" =
      { status := 200, error := false, success := some true, logged := false } :=
  ⟨fun v => by cases v <;> rfl, by decide⟩

/-- Claim C7: whenever the legacy Place projection produces a document, its
attributes are exactly Dec = dec_rad * (180/pi), RA = ra_rad * (12/pi),
Rotation = roll_rad * (180/pi), ZoomLevel = roi_height_deg * 7.2. -/
theorem sceneToPlace_coordinate_transform (imageExists : String → Bool) (pi : ℚ)
    (scene : MongoScene) (pl : PlaceXml)
    (h : sceneToPlace imageExists pi scene = .ok pl) :
    pl.dec = scene.place.dec_rad * (180 / pi) ∧
    pl.ra = scene.place.ra_rad * (12 / pi) ∧
    pl.rotation = scene.place.roll_rad * (180 / pi) ∧
    pl.zoomLevel = scene.place.roi_height_deg * 7.2 := by
  unfold sceneToPlace at h
  split at h
  · split at h
    · dsimp only at h
      split at h
      · cases h; exact ⟨rfl, rfl, rfl, rfl⟩
      · exact Except.noConfusion h
    · cases h; exact ⟨rfl, rfl, rfl, rfl⟩
  · cases h; exact ⟨rfl, rfl, rfl, rfl⟩

/-- Claim C7, witness: the projection of a concrete scene at pi = 3. -/
theorem sceneToPlace_coordinate_transform_witness :
    sceneToPlace (fun _ => true) 3 scW = .ok plW ∧
    (plW.dec = scW.place.dec_rad * (180 / 3) ∧
     plW.ra = scW.place.ra_rad * (12 / 3) ∧
     plW.rotation = scW.place.roll_rad * (180 / 3) ∧
     plW.zoomLevel = scW.place.roi_height_deg * 7.2) :=
  ⟨rfl, sceneToPlace_coordinate_transform (fun _ => true) 3 scW plW rfl⟩

/-- Claim C8: every home-timeline page contains only published scenes (each
carrying a non-negative ranking key), is ordered ascending by the ranking
key, and holds at most 8 scenes. -/
theorem homeTimelinePage_published_sorted_bounded (scenes : List MongoScene) (page : ℕ) :
    (∀ s ∈ homeTimelinePage scenes page, s.published = true ∧
      ∃ k, s.home_timeline_sort_key = some k ∧ 0 ≤ k) ∧
    List.Sorted (fun a b => sortKeyD a ≤ sortKeyD b) (homeTimelinePage scenes page) ∧
    (homeTimelinePage scenes page).length ≤ pageSize := by
  have hsub : List.Sublist (homeTimelinePage scenes page)
      ((scenes.filter homeTimelineFilter).insertionSort
        (fun a b => sortKeyD a ≤ sortKeyD b)) :=
    (List.take_sublist _ _).trans (List.drop_sublist _ _)
  refine ⟨?_, ?_, ?_⟩
  · intro s hs
    have hmem : s ∈ scenes.filter homeTimelineFilter :=
      (List.mem_insertionSort _).mp (hsub.subset hs)
    have hfilter := List.of_mem_filter hmem
    simp only [homeTimelineFilter, Bool.and_eq_true] at hfilter
    obtain ⟨hkey, hpub⟩ := hfilter
    refine ⟨hpub, ?_⟩
    cases hk : s.home_timeline_sort_key with
    | none => rw [hk] at hkey; simp at hkey
    | some k =>
      rw [hk] at hkey
      simp only [decide_eq_true_eq] at hkey
      exact ⟨k, rfl, hkey⟩
  · haveI : IsTotal MongoScene (fun a b => sortKeyD a ≤ sortKeyD b) :=
      ⟨fun a b => le_total _ _⟩
    haveI : IsTrans MongoScene (fun a b => sortKeyD a ≤ sortKeyD b) :=
      ⟨fun _ _ _ => le_trans⟩
    exact List.Pairwise.sublist hsub (List.sorted_insertionSort _ _)
  · exact List.length_take_le _ _

/-- Claim C8, witness: a concrete published scene with ranking key 5 appears
on page 0 and satisfies the page guarantees. -/
theorem homeTimelinePage_published_sorted_bounded_witness :
    scH ∈ homeTimelinePage [scH] 0 ∧ scH.published = true ∧
    ∃ k, scH.home_timeline_sort_key = some k ∧ 0 ≤ k :=
  have hmem : scH ∈ homeTimelinePage [scH] 0 := by decide
  ⟨hmem, (homeTimelinePage_published_sorted_bounded [scH] 0).1 scH hmem⟩

/-- Claim C9, counterexample: when the "global" tessellation table does not
exist, the nearby-global handler answers 500, not the claimed NotFound
404. -/
theorem nearbyGlobal_counterexample :
    (nearbyGlobal false (some 5) (fun _ => [])).status = 500 ∧
    (nearbyGlobal false (some 5) (fun _ => [])).status ≠ 404 := by
  decide

/-- Claim C9 (amended): for every GET /scene/:id/nearby-global request, if
the "global" partition table does not exist in the tessellation store, the
request fails with a 500 internal error response (error body, no
results). -/
theorem nearbyGlobal_missing_tessellation_500 (size : Option ℕ)
    (nearbyIDs : ℕ → List String) :
    nearbyGlobal false size nearbyIDs =
      { status := 500, error := true, results := none } :=
  rfl

end Constellations
